import Mathlib

/-!
Verification development for the R playground MCP session manager
(`rplayground_mcp/session_manager.py` and `session_manager_interface.py`).

The Python code is shallowly embedded: the R interpreter, the filesystem
(each session's temp directory) and Python's exception behaviour are made
explicit.  Strings that only matter as file names are modelled as `List Char`
(the character sequence of the Python string), so that glob matching can be
reasoned about; user-facing messages stay `String`.
-/

/-- `ExecutionResult` from `session_manager_interface.py` (lines 7-11).
`None` fields are `Option.none`; the in-memory PIL images are modelled by
their decoded content. -/
structure ExecutionResult where
  successful_output : Option String
  r_error_output : Option String
  system_error_output : Option String
  images : List String
deriving DecidableEq

/-- A file in a session's temp directory: its name (character list of the
Python/R path basename), its content, and whether `PIL.Image.open` can decode
it without raising. -/
structure RFile where
  name : List Char
  content : String
  decodable : Bool
deriving DecidableEq

/-- Embedding of Python's `fnmatch`/`glob` test for the fixed pattern
`plot_*.png` (session_manager.py line 154): the name starts with `plot_` and,
past those five characters, ends with `.png` (`*` matches any characters,
including dots). -/
def plotGlobMatch (name : List Char) : Bool :=
  "plot_".data.isPrefixOf name && ".png".data.isSuffixOf (name.drop 5)

/-- Decimal digit characters of a natural number, most significant first:
the embedding of Python's `str(n)` / R's default integer formatting. -/
def toDigitChars (n : Nat) : List Char :=
  if h : n < 10 then [Char.ofNat (48 + n)]
  else toDigitChars (n / 10) ++ [Char.ofNat (48 + n % 10)]
decreasing_by exact Nat.div_lt_self (by omega) (by omega)

/-- Embedding of Python's `str` on a natural number. -/
def pyStr (n : Nat) : String :=
  String.mk (toDigitChars n)

/-- The R helper `img_func` injected into every session environment
(session_manager.py lines 68-71): it returns
`plot_<14-digit timestamp>_<4-digit random>.<extension>` inside the session's
temp directory.  `ts` is the `format(Sys.time(), "%Y%m%d%H%M%S")` value and
`rnd` the `floor(runif(1, 1000, 9999))` draw, both rendered in decimal. -/
def get_img_dest_file_name (ts rnd : Nat) (extension : List Char) : List Char :=
  "plot_".data ++ toDigitChars ts ++ "_".data ++ toDigitChars rnd
    ++ ".".data ++ extension

/-- Outcome of the one `self.r(wrapper_code)` round trip inside
`AsyncRSession.execute`, as seen by the Python code: normal return (the
captured `output` character vector and the `result` value, `none` for R
`NULL`), an `RRuntimeError`, an `RParsingError`, or any other Python
exception (message and formatted traceback). -/
inductive RRunOutcome where
  | ok (outputLines : List String) (resultVal : Option String)
  | rRuntimeError (msg : String)
  | rParsingError (msg : String)
  | pythonError (msg : String) (tb : String)
deriving DecidableEq

/-- Everything one `execute` call's R evaluation does: its outcome plus the
files the guest code wrote into the session temp directory before
returning or failing. -/
structure RCallEffect where
  outcome : RRunOutcome
  filesWritten : List RFile
deriving DecidableEq

/-- Python's `needle in haystack` substring test, on character lists. -/
def isSubstring (needle : List Char) : List Char → Bool
  | [] => needle.isEmpty
  | c :: rest => needle.isPrefixOf (c :: rest) || isSubstring needle rest

/-- The output-merging logic of `AsyncRSession.execute`
(session_manager.py lines 137-149); `in` on stripped Python strings is the
substring test on the trimmed character lists. -/
def combineOutput (output_str result_str : String) : String :=
  if output_str ≠ "" ∧ result_str ≠ "" ∧ ¬ result_str.startsWith "[1]" then
    output_str ++ "\n" ++ result_str
  else if output_str ≠ "" ∧ result_str ≠ "" then
    if isSubstring result_str.trim.data output_str.trim.data then output_str
    else output_str ++ "\n" ++ result_str
  else if output_str ≠ "" then output_str else result_str

/-- `AsyncRSession.execute` (session_manager.py lines 94-204), acting on the
session's temp-directory contents.  `initialized` is the line-95 guard
(`self.r is None or self.session_env is None`); when it fails no R call is
made.  Otherwise the guest writes `eff.filesWritten`; on normal return the
harvester (lines 151-167) copies and deletes every `plot_*.png` file that
decodes, skipping (and keeping) files whose processing raises; on any
exception path no harvesting happens and `images` is empty. -/
def AsyncRSession.execute (initialized : Bool) (files : List RFile)
    (eff : RCallEffect) : List RFile × ExecutionResult :=
  if initialized = false then
    (files, ⟨none, none, some "R session not properly initialized", []⟩)
  else
    let files1 := files ++ eff.filesWritten
    match eff.outcome with
    | .ok outputLines resultVal =>
      let output_str :=
        if outputLines.length > 0 then String.intercalate "\n" outputLines else ""
      let result_str := resultVal.getD ""
      let combined := combineOutput output_str result_str
      let images :=
        (files1.filter (fun f => plotGlobMatch f.name && f.decodable)).map
          (fun f => f.content)
      let files2 := files1.filter (fun f => !(plotGlobMatch f.name && f.decodable))
      (files2, ⟨some combined, none, none, images⟩)
    | .rRuntimeError msg => (files1, ⟨none, some msg, none, []⟩)
    | .rParsingError msg =>
      (files1, ⟨none, some ("R parsing error: " ++ msg), none, []⟩)
    | .pythonError msg tb =>
      (files1, ⟨none, none, some ("Python error: " ++ msg ++ "\n" ++ tb), []⟩)

/-- One `AsyncRSession` object's fields that matter to the manager:
its id, the name of its R environment, its temp directory path, and whether
`__init__` completed (`self.session_env` non-`None`). -/
structure RSession where
  session_id : String
  env_name : String
  temp_dir : String
  initialized : Bool
deriving DecidableEq

/-- The state a `SessionManager` call can observe and mutate: the
`self.sessions` registry (a Python dict, keys unique), the filesystem
restricted to session temp directories (path, contents; presence of a key
means the directory exists), and the set of session environments bound in
R's global environment. -/
structure ManagerState where
  registry : List (String × RSession)
  fs : List (String × List RFile)
  rEnvs : List String
deriving DecidableEq

/-- Python `dict` lookup on the association-list model (first match). -/
def lookupA {α : Type} (l : List (String × α)) (k : String) : Option α :=
  (l.find? (fun p => p.1 == k)).map (fun p => p.2)

/-- Python `del d[k]` on the association-list model. -/
def eraseA {α : Type} (l : List (String × α)) (k : String) : List (String × α) :=
  l.filter (fun p => !(p.1 == k))

/-- Replace the stored value of an existing key. -/
def updateA {α : Type} (l : List (String × α)) (k : String) (v : α) :
    List (String × α) :=
  l.map (fun p => if p.1 == k then (k, v) else p)

/-- `AsyncRSession.destroy` (lines 221-249): try to `rm` the session's R
environment (`rmEnvOk = false` models that R call raising; the exception is
caught) and in a `finally` always run `_cleanup_temp_dir`, which removes the
temp directory's files and the directory itself. -/
def AsyncRSession.destroy (st : ManagerState) (s : RSession) (rmEnvOk : Bool) :
    ManagerState :=
  { st with
    rEnvs := if rmEnvOk then st.rEnvs.filter (fun e => !(e == s.env_name)) else st.rEnvs
    fs := eraseA st.fs s.temp_dir }

/-- `SessionManager.destroy_session` (lines 305-323): if the id is
registered, call the session's `destroy` inside `try/except`
(`destroyRaises = true` models it raising, the exception is swallowed and
none of its effects are modelled as having happened), then in a `finally`
delete the registry entry; return whether the id was registered. -/
def SessionManager.destroy_session (st : ManagerState) (sid : String)
    (rmEnvOk destroyRaises : Bool) : ManagerState × Bool :=
  match lookupA st.registry sid with
  | some s =>
    let st1 := if destroyRaises then st else AsyncRSession.destroy st s rmEnvOk
    ({ st1 with registry := eraseA st1.registry sid }, true)
  | none => (st, false)

/-- The message of the `RuntimeError` re-raised by `AsyncRSession.__init__`
when setting up the R environment fails (lines 90-92), without the wrapped
inner exception text. -/
def ctorFailMsg (sid : String) : String :=
  "Failed to initialize R session environment session_env_" ++ sid

/-- The session id a `create_session` call operates on: the caller's id, or
`"s" + str(random.randint(10000000, 99999999))` when omitted (line 265). -/
def requestedSid (sidOpt : Option String) (rnd : Nat) : String :=
  match sidOpt with
  | some s => s
  | none => "s" ++ pyStr rnd

/-- `SessionManager.create_session` (lines 262-284).  `rnd` is the
`random.randint(10000000, 99999999)` draw used when `session_id` is omitted;
`freshDir` is the directory `tempfile.mkdtemp` would create; `ctorOk = false`
models `AsyncRSession.__init__` raising (it cleans up its own temp directory
before re-raising, so the state is the post-collision-destroy state).  The
second component is the normal return or the propagated exception. -/
def SessionManager.create_session (st : ManagerState) (sidOpt : Option String)
    (rnd : Nat) (freshDir : String) (ctorOk rmEnvOk destroyRaises : Bool) :
    ManagerState × Except String String :=
  let sid := requestedSid sidOpt rnd
  let st1 :=
    if (lookupA st.registry sid).isSome then
      (SessionManager.destroy_session st sid rmEnvOk destroyRaises).1
    else st
  if ctorOk then
    let sess : RSession :=
      { session_id := sid, env_name := "session_env_" ++ sid,
        temp_dir := freshDir, initialized := true }
    ({ registry := st1.registry ++ [(sid, sess)],
       fs := (freshDir, []) :: st1.fs,
       rEnvs := sess.env_name :: st1.rEnvs }, Except.ok sid)
  else
    (st1, Except.error (ctorFailMsg sid))

/-- `SessionManager.execute_in_session` (lines 286-303): unknown ids get a
structured `system_error_output` result and the state is untouched;
otherwise the session's `execute` runs against the session's temp directory
contents.  The function is total: it never raises. -/
def SessionManager.execute_in_session (st : ManagerState) (sid : String)
    (eff : RCallEffect) : ManagerState × ExecutionResult :=
  match lookupA st.registry sid with
  | none =>
    (st, ⟨none, none, some ("Session " ++ sid ++ " does not exist"), []⟩)
  | some s =>
    let files := (lookupA st.fs s.temp_dir).getD []
    let fe := AsyncRSession.execute s.initialized files eff
    ({ st with fs := updateA st.fs s.temp_dir fe.1 }, fe.2)

/-!
### The R-side semantics of `execute`'s wrapper code

`AsyncRSession.execute` submits (lines 106-121)

```
output <- capture.output({
    result <- local({<code>}, envir=session_env_<id>)
}, type="output")
list(output=output, result=result)
```

to `self.r`, which evaluates it in R's global environment.  `local(expr,
envir=e)` evaluates `expr` directly inside `e`, so user-level assignments
bind in the session's private environment, whose parent is the global
environment; the wrapper's own `result <-` and `output <-` assignments bind
at the top level of the global environment.  We embed this with explicit
environments over a micro-language of guest commands sufficient for the
isolation claims: bind a name to an integer, or read a name back.
-/

/-- R values we need: integers and character vectors (captured output). -/
inductive RValue where
  | int (n : Int)
  | chr (lines : List String)
deriving DecidableEq

/-- An R environment frame: name-to-value bindings, newest first. -/
abbrev REnv := List (String × RValue)

/-- Binding lookup inside one frame. -/
def lookupEnv (e : REnv) (x : String) : Option RValue :=
  (e.find? (fun p => p.1 == x)).map (fun p => p.2)

/-- `assign`/`<-` into one frame (newest binding shadows older ones). -/
def insertEnv (e : REnv) (x : String) (v : RValue) : REnv :=
  (x, v) :: e

/-- The R interpreter state: the global environment's ordinary bindings and
each session's private environment `session_env_<id>` (parent: global). -/
structure RState where
  globalEnv : REnv
  sessionEnvOf : String → REnv

/-- Point update of the session-environment table. -/
def updateF (f : String → REnv) (k : String) (v : REnv) : String → REnv :=
  fun x => if x = k then v else f x

/-- Guest commands: `x <- v` and reading `x` back as the last expression. -/
inductive UserCode where
  | assign (x : String) (v : Int)
  | readVar (x : String)

/-- Evaluate guest code inside `local({code}, envir=session_env_<sid>)`:
assignment binds in the session environment; a name read resolves in the
session environment first, then in its parent, the global environment
(`none` = R error "object not found", which aborts the wrapper). -/
def evalUser (st : RState) (sid : String) : UserCode → RState × Option RValue
  | .assign x v =>
    ({ st with
       sessionEnvOf :=
         updateF st.sessionEnvOf sid (insertEnv (st.sessionEnvOf sid) x (.int v)) },
     some (.int v))
  | .readVar x =>
    (st,
     match lookupEnv (st.sessionEnvOf sid) x with
     | some v => some v
     | none => lookupEnv st.globalEnv x)

/-- One full wrapper evaluation (the single `self.r(wrapper_code)` call of
`execute`, atomic on the shared R instance): run the guest code in the
session's environment; on success bind `result` (the guest value) and
`output` (the captured console text — empty for our command forms, which
print nothing) at the top level of the *global* environment and return the
`list(output=..., result=...)` value; on an R error nothing is bound and the
error propagates. -/
def wrapperExec (st : RState) (sid : String) (c : UserCode) :
    RState × Option (List String × RValue) :=
  match evalUser st sid c with
  | (st1, some v) =>
    ({ st1 with
       globalEnv := insertEnv (insertEnv st1.globalEnv "result" v) "output" (.chr []) },
     some ([], v))
  | (st1, none) => (st1, none)

/-- The §3/§8 result shape: at most one of the three string fields is
populated (non-`None`), and images may be present only alongside
`successful_output`. -/
def wellFormedResult (r : ExecutionResult) : Prop :=
  ([r.successful_output, r.r_error_output, r.system_error_output].countP
      Option.isSome ≤ 1)
  ∧ (r.images ≠ [] → r.successful_output.isSome = true)

/-!
### Helper lemmas
-/

@[simp]
theorem lookupA_nil {α : Type} (k : String) : lookupA ([] : List (String × α)) k = none :=
  rfl

@[simp]
theorem lookupA_cons {α : Type} (a : String) (b : α) (t : List (String × α)) (k : String) :
    lookupA ((a, b) :: t) k = if a = k then some b else lookupA t k := by
  by_cases h : a = k
  · simp [lookupA, List.find?, h]
  · have hb : (a == k) = false := beq_eq_false_iff_ne.mpr h
    simp [lookupA, List.find?, hb, h]

@[simp]
theorem eraseA_nil {α : Type} (k : String) : eraseA ([] : List (String × α)) k = [] :=
  rfl

@[simp]
theorem eraseA_cons {α : Type} (a : String) (b : α) (t : List (String × α)) (k : String) :
    eraseA ((a, b) :: t) k = if a = k then eraseA t k else (a, b) :: eraseA t k := by
  by_cases h : a = k <;> simp [eraseA, List.filter_cons, h]

theorem lookupA_eraseA_self {α : Type} (l : List (String × α)) (k : String) :
    lookupA (eraseA l k) k = none := by
  induction l with
  | nil => rfl
  | cons p t ih =>
    obtain ⟨a, b⟩ := p
    by_cases h : a = k <;> simp [h, ih]

theorem lookupA_eraseA_append {α : Type} (l : List (String × α)) (k : String) (v : α) :
    lookupA (eraseA l k ++ [(k, v)]) k = some v := by
  induction l with
  | nil => simp
  | cons p t ih =>
    obtain ⟨a, b⟩ := p
    by_cases h : a = k <;> simp [h, ih]

theorem countP_eraseA {α : Type} (l : List (String × α)) (k : String) :
    (eraseA l k).countP (fun p => p.1 == k) = 0 := by
  induction l with
  | nil => rfl
  | cons p t ih =>
    obtain ⟨a, b⟩ := p
    by_cases h : a = k <;> simp [h, ih, List.countP_cons]

theorem lookupA_append_of_eq_none {α : Type} (l l' : List (String × α)) (k : String)
    (h : lookupA l k = none) : lookupA (l ++ l') k = lookupA l' k := by
  induction l with
  | nil => simp
  | cons p t ih =>
    obtain ⟨a, b⟩ := p
    by_cases ha : a = k
    · simp [ha] at h
    · simp [ha] at h ⊢
      exact ih h

@[simp]
theorem lookupEnv_insert_self (e : REnv) (x : String) (v : RValue) :
    lookupEnv (insertEnv e x v) x = some v := by
  simp [lookupEnv, insertEnv, List.find?]

theorem lookupEnv_insert_ne (e : REnv) (x y : String) (v : RValue) (h : x ≠ y) :
    lookupEnv (insertEnv e x v) y = lookupEnv e y := by
  have hb : (x == y) = false := beq_eq_false_iff_ne.mpr h
  simp [lookupEnv, insertEnv, List.find?, hb]

@[simp]
theorem updateF_self (f : String → REnv) (k : String) (v : REnv) :
    updateF f k v k = v := by
  simp [updateF]

theorem updateF_ne (f : String → REnv) (k x : String) (v : REnv) (h : x ≠ k) :
    updateF f k v x = f x := by
  simp [updateF, h]

/-!
### C1 — result-shape invariant
-/

/-- C1: every result returned by `AsyncRSession.execute`, and hence by
`SessionManager.execute_in_session`, has at most one of
`successful_output` / `r_error_output` / `system_error_output` populated
(non-`None`), and a non-empty `images` list occurs only when
`successful_output` is the populated field. -/
theorem c1_result_exclusive (init : Bool) (files : List RFile) (eff : RCallEffect)
    (st : ManagerState) (sid : String) :
    wellFormedResult (AsyncRSession.execute init files eff).2
    ∧ wellFormedResult (SessionManager.execute_in_session st sid eff).2 := by
  have key : ∀ (i : Bool) (fl : List RFile) (e : RCallEffect),
      wellFormedResult (AsyncRSession.execute i fl e).2 := by
    intro i fl e
    obtain ⟨outcome, fw⟩ := e
    cases i <;> cases outcome <;>
      simp [AsyncRSession.execute, wellFormedResult, List.countP_cons]
  refine ⟨key init files eff, ?_⟩
  unfold SessionManager.execute_in_session
  cases h : lookupA st.registry sid with
  | none => simp [wellFormedResult, List.countP_cons]
  | some s => exact key s.initialized _ eff

/-- Closed instance of C1 at a concrete call. -/
theorem c1_result_exclusive_witness :
    wellFormedResult
      (AsyncRSession.execute true [] ⟨.ok ["[1] 2"] (some "[1] 2"), []⟩).2
    ∧ wellFormedResult
        (SessionManager.execute_in_session ⟨[], [], []⟩ "absent"
          ⟨.ok ["[1] 2"] (some "[1] 2"), []⟩).2 :=
  c1_result_exclusive true [] ⟨.ok ["[1] 2"] (some "[1] 2"), []⟩ ⟨[], [], []⟩ "absent"

/-!
### C5 — executing in a nonexistent session
-/

/-- C5: for a session id absent from the registry,
`SessionManager.execute_in_session` returns (it is a total function — it
never raises) a result whose `system_error_output` states that the session
does not exist, with both other outcome fields `None`, an empty `images`
list, and the manager state untouched. -/
theorem c5_missing_session (st : ManagerState) (sid : String) (eff : RCallEffect)
    (h : lookupA st.registry sid = none) :
    SessionManager.execute_in_session st sid eff
      = (st, ⟨none, none, some ("Session " ++ sid ++ " does not exist"), []⟩) := by
  simp [SessionManager.execute_in_session, h]

/-- Closed instance of C5: empty manager, session `"nope"`. -/
theorem c5_missing_session_witness :
    lookupA (ManagerState.mk [] [] []).registry "nope" = none
    ∧ SessionManager.execute_in_session ⟨[], [], []⟩ "nope" ⟨.ok [] none, []⟩
        = (⟨[], [], []⟩, ⟨none, none, some "Session nope does not exist", []⟩) :=
  ⟨rfl, c5_missing_session ⟨[], [], []⟩ "nope" ⟨.ok [] none, []⟩ rfl⟩

/-!
### C6 — destroy_session semantics
-/

/-- C6: `destroy_session` returns `true` exactly when the id was registered;
the registry entry is removed even when the underlying session's `destroy`
raises (`destroyRaises = true`; the exception is swallowed, not propagated,
and the `finally` block deletes the entry), so the registry never retains a
reference to a half-destroyed session; and a second `destroy_session` with
the same id returns `false`. -/
theorem c6_destroy_session (st : ManagerState) (sid : String)
    (rmEnvOk destroyRaises rmEnvOk2 destroyRaises2 : Bool) :
    ((SessionManager.destroy_session st sid rmEnvOk destroyRaises).2
        = (lookupA st.registry sid).isSome)
    ∧ lookupA (SessionManager.destroy_session st sid rmEnvOk destroyRaises).1.registry
        sid = none
    ∧ (SessionManager.destroy_session
        (SessionManager.destroy_session st sid rmEnvOk destroyRaises).1 sid
        rmEnvOk2 destroyRaises2).2 = false := by
  cases h : lookupA st.registry sid with
  | none =>
    simp [SessionManager.destroy_session, h]
  | some s =>
    have h2 : lookupA (SessionManager.destroy_session st sid rmEnvOk destroyRaises).1.registry sid = none := by
      cases destroyRaises <;>
        simp [SessionManager.destroy_session, h, AsyncRSession.destroy, lookupA_eraseA_self]
    refine ⟨?_, h2, ?_⟩
    · simp [SessionManager.destroy_session, h]
    · generalize (SessionManager.destroy_session st sid rmEnvOk destroyRaises).1 = st2 at h2 ⊢
      simp [SessionManager.destroy_session, h2]

/-- Closed instance of C6: one registered session, raising destroy. -/
theorem c6_destroy_session_witness :
    ((SessionManager.destroy_session
        ⟨[("X", ⟨"X", "session_env_X", "dirX", true⟩)], [("dirX", [])],
          ["session_env_X"]⟩ "X" true true).2 = true)
    ∧ lookupA (SessionManager.destroy_session
        ⟨[("X", ⟨"X", "session_env_X", "dirX", true⟩)], [("dirX", [])],
          ["session_env_X"]⟩ "X" true true).1.registry "X" = none
    ∧ (SessionManager.destroy_session
        (SessionManager.destroy_session
          ⟨[("X", ⟨"X", "session_env_X", "dirX", true⟩)], [("dirX", [])],
            ["session_env_X"]⟩ "X" true true).1 "X" false false).2 = false :=
  c6_destroy_session
    ⟨[("X", ⟨"X", "session_env_X", "dirX", true⟩)], [("dirX", [])],
      ["session_env_X"]⟩ "X" true true false false

/-!
### C4 — collision handling in create_session
-/

/-- C4: calling `create_session(X)` while `X` is registered destroys the
prior session first — its temp directory is gone from the filesystem — and
then constructs and registers the new session, leaving exactly one registry
entry under `X` (the fresh session, with a fresh empty temp directory); the
collision is reported as a normal `Except.ok X`, never as an error.
`freshDir ≠ old.temp_dir` is `tempfile.mkdtemp`'s freshness guarantee. -/
theorem c4_collision_replaces (st : ManagerState) (X freshDir : String)
    (old : RSession) (rmEnvOk : Bool)
    (hold : lookupA st.registry X = some old)
    (hfresh : freshDir ≠ old.temp_dir) :
    ((SessionManager.create_session st (some X) 0 freshDir true rmEnvOk false).2
        = Except.ok X)
    ∧ lookupA (SessionManager.create_session st (some X) 0 freshDir true rmEnvOk
        false).1.registry X = some ⟨X, "session_env_" ++ X, freshDir, true⟩
    ∧ ((SessionManager.create_session st (some X) 0 freshDir true rmEnvOk
        false).1.registry.countP (fun p => p.1 == X) = 1)
    ∧ lookupA (SessionManager.create_session st (some X) 0 freshDir true rmEnvOk
        false).1.fs old.temp_dir = none
    ∧ lookupA (SessionManager.create_session st (some X) 0 freshDir true rmEnvOk
        false).1.fs freshDir = some [] := by
  have hu : SessionManager.create_session st (some X) 0 freshDir true rmEnvOk false
      = ({ registry := eraseA st.registry X ++ [(X, ⟨X, "session_env_" ++ X, freshDir, true⟩)],
           fs := (freshDir, []) :: eraseA st.fs old.temp_dir,
           rEnvs := ("session_env_" ++ X) ::
             (if rmEnvOk then st.rEnvs.filter (fun e => !(e == old.env_name)) else st.rEnvs) },
         Except.ok X) := by
    simp [SessionManager.create_session, requestedSid, SessionManager.destroy_session,
      hold, AsyncRSession.destroy]
  refine ⟨by rw [hu], ?_, ?_, ?_, ?_⟩
  · rw [hu]
    exact lookupA_eraseA_append st.registry X _
  · rw [hu]
    simp [List.countP_append, countP_eraseA, List.countP_cons]
  · rw [hu]
    simp [hfresh, lookupA_eraseA_self]
  · rw [hu]
    simp

/-- Closed instance of C4: a colliding `create_session("X")`. -/
theorem c4_collision_replaces_witness :
    ((SessionManager.create_session
        ⟨[("X", ⟨"X", "session_env_X", "dirOld", true⟩)], [("dirOld", [])],
          ["session_env_X"]⟩ (some "X") 0 "dirNew" true true false).2
      = Except.ok "X")
    ∧ lookupA (SessionManager.create_session
        ⟨[("X", ⟨"X", "session_env_X", "dirOld", true⟩)], [("dirOld", [])],
          ["session_env_X"]⟩ (some "X") 0 "dirNew" true true false).1.fs
        (RSession.mk "X" "session_env_X" "dirOld" true).temp_dir = none :=
  ⟨(c4_collision_replaces
      ⟨[("X", ⟨"X", "session_env_X", "dirOld", true⟩)], [("dirOld", [])],
        ["session_env_X"]⟩ "X" "dirNew" ⟨"X", "session_env_X", "dirOld", true⟩ true
      rfl (by decide)).1,
   (c4_collision_replaces
      ⟨[("X", ⟨"X", "session_env_X", "dirOld", true⟩)], [("dirOld", [])],
        ["session_env_X"]⟩ "X" "dirNew" ⟨"X", "session_env_X", "dirOld", true⟩ true
      rfl (by decide)).2.2.2.1⟩

/-!
### C7 — construction failure in create_session
-/

/-- C7 counterexample: with session `"X"` registered, a `create_session("X")`
whose `AsyncRSession` construction fails does propagate the error, but the
registry is NOT left unchanged from the start of the call: the previously
registered session under `"X"` was already destroyed and deregistered by the
collision handling before construction was attempted, so it is lost. -/
theorem c7_counterexample :
    (lookupA (ManagerState.mk
        [("X", ⟨"X", "session_env_X", "dirX", true⟩)] [("dirX", [])]
        ["session_env_X"]).registry "X"
      = some ⟨"X", "session_env_X", "dirX", true⟩)
    ∧ ((SessionManager.create_session
        ⟨[("X", ⟨"X", "session_env_X", "dirX", true⟩)], [("dirX", [])],
          ["session_env_X"]⟩ (some "X") 0 "dir2" false true false).2
      = Except.error (ctorFailMsg "X"))
    ∧ ((SessionManager.create_session
        ⟨[("X", ⟨"X", "session_env_X", "dirX", true⟩)], [("dirX", [])],
          ["session_env_X"]⟩ (some "X") 0 "dir2" false true false).1.registry
      = []) :=
  ⟨rfl, rfl, rfl⟩

/-- C7 as amended: when constructing the underlying session fails, the error
propagates to the caller as `Except.error`, no session is registered under
the requested id, and — when that id was NOT already registered — the whole
manager state is unchanged.  (When the id collided, the prior session has
already been destroyed and deregistered before construction, as C7's
counterexample shows.) -/
theorem c7_ctor_failure (st : ManagerState) (sidOpt : Option String) (rnd : Nat)
    (freshDir : String) (rmEnvOk destroyRaises : Bool) :
    ((SessionManager.create_session st sidOpt rnd freshDir false rmEnvOk
        destroyRaises).2 = Except.error (ctorFailMsg (requestedSid sidOpt rnd)))
    ∧ lookupA (SessionManager.create_session st sidOpt rnd freshDir false rmEnvOk
        destroyRaises).1.registry (requestedSid sidOpt rnd) = none
    ∧ (lookupA st.registry (requestedSid sidOpt rnd) = none →
        (SessionManager.create_session st sidOpt rnd freshDir false rmEnvOk
          destroyRaises).1 = st) := by
  cases h : lookupA st.registry (requestedSid sidOpt rnd) with
  | none =>
    simp [SessionManager.create_session, h]
  | some s =>
    refine ⟨?_, ?_, ?_⟩
    · simp [SessionManager.create_session, h]
    · cases destroyRaises <;>
        simp [SessionManager.create_session, SessionManager.destroy_session, h,
          AsyncRSession.destroy, lookupA_eraseA_self]
    · intro hn
      exact Option.noConfusion hn

/-- Closed instance of C7 as amended: fresh id, failing construction. -/
theorem c7_ctor_failure_witness :
    ((SessionManager.create_session ⟨[], [], []⟩ (some "Y") 0 "d" false true
        false).2 = Except.error (ctorFailMsg "Y"))
    ∧ ((SessionManager.create_session ⟨[], [], []⟩ (some "Y") 0 "d" false true
        false).1 = (⟨[], [], []⟩ : ManagerState)) :=
  ⟨(c7_ctor_failure ⟨[], [], []⟩ (some "Y") 0 "d" true false).1,
   (c7_ctor_failure ⟨[], [], []⟩ (some "Y") 0 "d" true false).2.2 rfl⟩

/-!
### C8 — generated session identifiers
-/

theorem digitChar_isDigit (m : Nat) (h : m < 10) :
    (Char.ofNat (48 + m)).isDigit = true := by
  interval_cases m <;> decide

theorem toDigitChars_all_digit (n : Nat) :
    (toDigitChars n).all Char.isDigit = true := by
  induction n using Nat.strong_induction_on with
  | _ n ih =>
    rw [toDigitChars]
    by_cases h : n < 10
    · simp only [dif_pos h, List.all_cons, List.all_nil, Bool.and_true]
      exact digitChar_isDigit n h
    · simp only [dif_neg h, List.all_append, List.all_cons, List.all_nil,
        Bool.and_true]
      rw [ih (n / 10) (Nat.div_lt_self (by omega) (by omega)),
        digitChar_isDigit (n % 10) (Nat.mod_lt n (by omega))]
      rfl

theorem toDigitChars_length (k : Nat) :
    ∀ n, 10 ^ k ≤ n → n < 10 ^ (k + 1) → (toDigitChars n).length = k + 1 := by
  induction k with
  | zero =>
    intro n h1 h2
    rw [toDigitChars, dif_pos (by simpa using h2)]
    rfl
  | succ k ih =>
    intro n h1 h2
    have hp : (10 : Nat) ≤ 10 ^ (k + 1) := by
      calc (10 : Nat) = 10 ^ 1 := (pow_one 10).symm
      _ ≤ 10 ^ (k + 1) := Nat.pow_le_pow_right (by omega) (by omega)
    have h10 : ¬ n < 10 := by omega
    rw [toDigitChars, dif_neg h10, List.length_append]
    have hb1 : 10 ^ k ≤ n / 10 := by
      rw [Nat.le_div_iff_mul_le (by omega)]
      calc 10 ^ k * 10 = 10 ^ (k + 1) := by rw [pow_succ]
      _ ≤ n := h1
    have hb2 : n / 10 < 10 ^ (k + 1) := by
      rw [Nat.div_lt_iff_lt_mul (by omega)]
      calc n < 10 ^ (k + 1 + 1) := h2
      _ = 10 ^ (k + 1) * 10 := by rw [pow_succ]
    rw [ih (n / 10) hb1 hb2]
    rfl

/-- C8 counterexample: with the id omitted and the random draw `10000000`,
the generated identifier is `"s10000000"` — it begins with the letter `s`,
so it is not a string of numeric characters only (and its length is 9, not
8). -/
theorem c8_counterexample :
    ((SessionManager.create_session ⟨[], [], []⟩ none 10000000 "dir" true true
        false).2 = Except.ok ("s" ++ pyStr 10000000))
    ∧ ("s" ++ pyStr 10000000).data.head? = some 's'
    ∧ 's'.isDigit = false :=
  ⟨rfl, rfl, rfl⟩

/-- C8 as amended: when the id is omitted, the generated identifier is the
letter `s` followed by the decimal numeral of a draw from the fixed range
`[10000000, 99999999]` — eight numeric characters after the leading `s`. -/
theorem c8_generated_id (st : ManagerState) (freshDir : String)
    (rmEnvOk destroyRaises : Bool) (n : Nat)
    (h1 : 10000000 ≤ n) (h2 : n ≤ 99999999) :
    ((SessionManager.create_session st none n freshDir true rmEnvOk
        destroyRaises).2 = Except.ok ("s" ++ pyStr n))
    ∧ ("s" ++ pyStr n).data = 's' :: toDigitChars n
    ∧ (toDigitChars n).length = 8
    ∧ (toDigitChars n).all Char.isDigit = true := by
  refine ⟨?_, rfl, ?_, toDigitChars_all_digit n⟩
  · by_cases hc : (lookupA st.registry ("s" ++ pyStr n)).isSome <;>
      simp [SessionManager.create_session, requestedSid, hc]
  · have e7 : (10 : Nat) ^ 7 = 10000000 := by norm_num
    have e8 : (10 : Nat) ^ 8 = 100000000 := by norm_num
    exact toDigitChars_length 7 n (by omega) (by omega)

/-- Closed instance of C8 as amended, at draw `12345678`. -/
theorem c8_generated_id_witness :
    ((SessionManager.create_session ⟨[], [], []⟩ none 12345678 "dir" true true
        false).2 = Except.ok ("s" ++ pyStr 12345678))
    ∧ (toDigitChars 12345678).length = 8 :=
  ⟨(c8_generated_id ⟨[], [], []⟩ "dir" true false 12345678 (by norm_num)
      (by norm_num)).1,
   (c8_generated_id ⟨[], [], []⟩ "dir" true false 12345678 (by norm_num)
      (by norm_num)).2.2.1⟩

/-!
### C3 — image harvesting and the failure path
-/

/-- C3 counterexample: a plot file written during a *failed* execute call is
not consumed — the call returns with the file still on disk (and an empty
`images` list), and the next successful call in the session harvests it, so
a file belonging to one `execute` call is visible to a later one. -/
theorem c3_counterexample :
    ((AsyncRSession.execute true []
        ⟨.rRuntimeError "boom", [⟨"plot_1.png".data, "IMG1", true⟩]⟩).1
      = [⟨"plot_1.png".data, "IMG1", true⟩])
    ∧ ((AsyncRSession.execute true []
        ⟨.rRuntimeError "boom", [⟨"plot_1.png".data, "IMG1", true⟩]⟩).2.images
      = [])
    ∧ ((AsyncRSession.execute true
        (AsyncRSession.execute true []
          ⟨.rRuntimeError "boom", [⟨"plot_1.png".data, "IMG1", true⟩]⟩).1
        ⟨.ok [] none, []⟩).2.images = ["IMG1"]) :=
  ⟨rfl, rfl, rfl⟩

/-- C3 as amended: plot files are harvested only by the success path.  On a
successful call, every `plot_*.png` file that decodes is consumed (none
remains in the directory) and its content is attached to `images`; on every
failure path (`RRuntimeError`, `RParsingError`, other Python exception) the
`images` list is empty and the directory — including files written during
the failed call — is left untouched, visible to a later call. -/
theorem c3_harvest_on_success_only (files : List RFile) (eff : RCallEffect) :
    (∀ outputLines resultVal, eff.outcome = .ok outputLines resultVal →
      (∀ f ∈ (AsyncRSession.execute true files eff).1,
          (plotGlobMatch f.name && f.decodable) = false)
      ∧ (AsyncRSession.execute true files eff).2.images
          = ((files ++ eff.filesWritten).filter
              (fun f => plotGlobMatch f.name && f.decodable)).map
              (fun f => f.content))
    ∧ (∀ msg, eff.outcome = .rRuntimeError msg →
        (AsyncRSession.execute true files eff).1 = files ++ eff.filesWritten
        ∧ (AsyncRSession.execute true files eff).2.images = [])
    ∧ (∀ msg, eff.outcome = .rParsingError msg →
        (AsyncRSession.execute true files eff).1 = files ++ eff.filesWritten
        ∧ (AsyncRSession.execute true files eff).2.images = [])
    ∧ (∀ msg tb, eff.outcome = .pythonError msg tb →
        (AsyncRSession.execute true files eff).1 = files ++ eff.filesWritten
        ∧ (AsyncRSession.execute true files eff).2.images = []) := by
  obtain ⟨outcome, fw⟩ := eff
  refine ⟨?_, ?_, ?_, ?_⟩
  · rintro lines resv rfl
    constructor
    · intro f hf
      simp only [AsyncRSession.execute] at hf
      simp at hf
      rcases hf with ⟨_, h⟩ | ⟨_, h⟩ <;> rcases h with h | h <;> simp [h]
    · simp [AsyncRSession.execute]
  · rintro msg rfl
    exact ⟨rfl, rfl⟩
  · rintro msg rfl
    exact ⟨rfl, rfl⟩
  · rintro msg tb rfl
    exact ⟨rfl, rfl⟩

/-- Closed instance of C3 as amended: success path consumes the written
plot file into `images`. -/
theorem c3_harvest_on_success_only_witness :
    (AsyncRSession.execute true []
      ⟨.ok [] none, [⟨"plot_9.png".data, "P", true⟩]⟩).2.images = ["P"] :=
  ((c3_harvest_on_success_only []
      ⟨.ok [] none, [⟨"plot_9.png".data, "P", true⟩]⟩).1 [] none rfl).2

/-!
### C10 — which files the harvester touches
-/

theorem gnp_prefix_shrink (R B : List Char)
    (hp : ['g', 'n', 'p', '.'] <+: (R ++ '.' :: B)) :
    ['g', 'n', 'p', '.'] <+: (R ++ ['.']) := by
  match R with
  | [] =>
    rw [List.nil_append, List.cons_prefix_cons] at hp
    exact absurd hp.1 (by decide)
  | [a] =>
    simp only [List.cons_append, List.nil_append, List.cons_prefix_cons] at hp
    exact absurd hp.2.1 (by decide)
  | [a, b] =>
    simp only [List.cons_append, List.nil_append, List.cons_prefix_cons] at hp
    exact absurd hp.2.2.1 (by decide)
  | [a, b, c] =>
    simp only [List.cons_append, List.nil_append, List.cons_prefix_cons] at hp
    simp only [List.cons_append, List.nil_append, List.cons_prefix_cons]
    exact ⟨hp.1, hp.2.1, hp.2.2.1, trivial, List.nil_prefix⟩
  | a :: b :: c :: d :: t =>
    simp only [List.cons_append, List.cons_prefix_cons] at hp
    simp only [List.cons_append, List.cons_prefix_cons]
    exact ⟨hp.1, hp.2.1, hp.2.2.1, hp.2.2.2.1, List.nil_prefix⟩

theorem not_png_suffix (A E : List Char)
    (h : ¬ (".png".data <:+ ('.' :: E))) :
    ¬ (".png".data <:+ (A ++ '.' :: E)) := by
  intro hs
  apply h
  rw [← List.reverse_prefix] at hs ⊢
  have hr : (".png".data).reverse = ['g', 'n', 'p', '.'] := by decide
  rw [hr] at hs ⊢
  rw [List.reverse_append, List.reverse_cons, List.append_assoc,
    List.singleton_append] at hs
  rw [List.reverse_cons]
  exact gnp_prefix_shrink E.reverse A.reverse hs

theorem plotGlobMatch_gen_false (ts rnd : Nat) (ext : List Char)
    (h : ¬ (".png".data <:+ ('.' :: ext))) :
    plotGlobMatch (get_img_dest_file_name ts rnd ext) = false := by
  have hsuf := not_png_suffix (toDigitChars ts ++ '_' :: toDigitChars rnd) ext h
  have hname : get_img_dest_file_name ts rnd ext
      = "plot_".data ++ ((toDigitChars ts ++ '_' :: toDigitChars rnd) ++ '.' :: ext) := by
    simp [get_img_dest_file_name]
  rw [plotGlobMatch, hname]
  have hdrop : ("plot_".data
        ++ ((toDigitChars ts ++ '_' :: toDigitChars rnd) ++ '.' :: ext)).drop 5
      = (toDigitChars ts ++ '_' :: toDigitChars rnd) ++ '.' :: ext := by
    have h5 : ("plot_".data).length = 5 := by decide
    rw [← h5, List.drop_left]
  rw [hdrop]
  have hb : (".png".data.isSuffixOf
      ((toDigitChars ts ++ '_' :: toDigitChars rnd) ++ '.' :: ext)) = false := by
    rw [Bool.eq_false_iff]
    intro hbt
    exact hsuf (List.isSuffixOf_iff_suffix.mp hbt)
  rw [hb, Bool.and_false]

/-- C10 counterexample: the extension `"extra.png"` is different from
`"png"`, yet the file name the path generator produces for it still matches
the `plot_*.png` glob, so the harvester decodes it, attaches it to `images`
and deletes it — contradicting "never decoded, never attached, never
deleted" for every extension other than `"png"`. -/
theorem c10_counterexample :
    ("extra.png".data ≠ "png".data)
    ∧ (AsyncRSession.execute true
        [⟨get_img_dest_file_name 20250101120000 1234 "extra.png".data, "IMGX",
          true⟩] ⟨.ok [] none, []⟩).2.images = ["IMGX"]
    ∧ (AsyncRSession.execute true
        [⟨get_img_dest_file_name 20250101120000 1234 "extra.png".data, "IMGX",
          true⟩] ⟨.ok [] none, []⟩).1 = [] := by
  have hname : get_img_dest_file_name 20250101120000 1234 "extra.png".data
      = "plot_20250101120000_1234.extra.png".data := by
    simp [get_img_dest_file_name, toDigitChars]
  refine ⟨by decide, ?_, ?_⟩ <;> rw [hname] <;> decide

/-- C10 as amended: for every extension whose dot-prefixed form does not end
in `.png` (equivalently: the extension is neither `"png"` itself nor ends in
`".png"`), a file written to a generator-produced path never matches the
`plot_*.png` glob, so `execute` never decodes or attaches it and leaves it
on disk, on every path; it disappears only when the session is destroyed,
which removes the whole temp directory. -/
theorem c10_nonpng_untouched (ts rnd : Nat) (ext : List Char)
    (h : ¬ (".png".data <:+ ('.' :: ext))) :
    plotGlobMatch (get_img_dest_file_name ts rnd ext) = false
    ∧ (∀ (init : Bool) (files : List RFile) (eff : RCallEffect) (f : RFile),
        f.name = get_img_dest_file_name ts rnd ext → f ∈ files →
          f ∈ (AsyncRSession.execute init files eff).1
          ∧ f ∉ ((files ++ eff.filesWritten).filter
              (fun g => plotGlobMatch g.name && g.decodable)))
    ∧ (∀ (st : ManagerState) (sid : String) (s : RSession) (rmEnvOk : Bool),
        lookupA st.registry sid = some s →
          lookupA (SessionManager.destroy_session st sid rmEnvOk false).1.fs
            s.temp_dir = none) := by
  have hm := plotGlobMatch_gen_false ts rnd ext h
  refine ⟨hm, ?_, ?_⟩
  · intro init files eff f hfname hf
    constructor
    · cases init with
      | false => simpa [AsyncRSession.execute] using hf
      | true =>
        obtain ⟨outcome, fw⟩ := eff
        cases outcome with
        | ok lines resv =>
          simp only [AsyncRSession.execute]
          simp only [Bool.true_eq_false, if_false]
          rw [List.mem_filter]
          refine ⟨List.mem_append_left _ hf, ?_⟩
          rw [hfname, hm]
          rfl
        | rRuntimeError m =>
          simp only [AsyncRSession.execute, Bool.true_eq_false, if_false]
          exact List.mem_append_left _ hf
        | rParsingError m =>
          simp only [AsyncRSession.execute, Bool.true_eq_false, if_false]
          exact List.mem_append_left _ hf
        | pythonError m tb =>
          simp only [AsyncRSession.execute, Bool.true_eq_false, if_false]
          exact List.mem_append_left _ hf
    · intro hmem
      rw [List.mem_filter] at hmem
      have h2 := hmem.2
      rw [hfname, hm] at h2
      simp at h2
  · intro st sid s rmEnvOk hs
    simp [SessionManager.destroy_session, hs, AsyncRSession.destroy,
      lookupA_eraseA_self]

/-- Closed instance of C10 as amended, extension `"txt"`. -/
theorem c10_nonpng_untouched_witness :
    plotGlobMatch (get_img_dest_file_name 20250101120000 1234 "txt".data) = false
    ∧ (⟨get_img_dest_file_name 20250101120000 1234 "txt".data, "T", true⟩ : RFile)
        ∈ (AsyncRSession.execute true
            [⟨get_img_dest_file_name 20250101120000 1234 "txt".data, "T", true⟩]
            ⟨.ok [] none, []⟩).1 :=
  ⟨(c10_nonpng_untouched 20250101120000 1234 "txt".data (by decide)).1,
   ((c10_nonpng_untouched 20250101120000 1234 "txt".data (by decide)).2.1 true
      [⟨get_img_dest_file_name 20250101120000 1234 "txt".data, "T", true⟩]
      ⟨.ok [] none, []⟩
      ⟨get_img_dest_file_name 20250101120000 1234 "txt".data, "T", true⟩ rfl
      (by simp)).1⟩

/-!
### C2 — session isolation, C9 — the wrapper's global `output`/`result`

Each `execute` call is one atomic `self.r(wrapper_code)` round trip on the
single shared R instance, so a concurrent pair of calls is one of the two
sequential interleavings; C2 is proved for both orders.
-/

/-- C2: binding a name to 100 in session `A` and to 200 in a different
session `B` — in either interleaving order — and then reading the name back
(in either session, sequentially) yields 100 in `A` and 200 in `B`; the
private binding scopes never cross-contaminate.  Holds for every name,
including the wrapper's own `output`/`result`, because the session
environment shadows the global one. -/
theorem c2_session_isolation (st : RState) (A B n : String) (hAB : A ≠ B) :
    (((wrapperExec (wrapperExec
          (wrapperExec (wrapperExec st A (.assign n 100)).1 B (.assign n 200)).1
          A (.readVar n)).1 B (.readVar n)).2 = some ([], .int 200))
      ∧ ((wrapperExec
          (wrapperExec (wrapperExec st A (.assign n 100)).1 B (.assign n 200)).1
          A (.readVar n)).2 = some ([], .int 100)))
    ∧ (((wrapperExec (wrapperExec
          (wrapperExec (wrapperExec st B (.assign n 200)).1 A (.assign n 100)).1
          A (.readVar n)).1 B (.readVar n)).2 = some ([], .int 200))
      ∧ ((wrapperExec
          (wrapperExec (wrapperExec st B (.assign n 200)).1 A (.assign n 100)).1
          A (.readVar n)).2 = some ([], .int 100))) := by
  have hBA : B ≠ A := Ne.symm hAB
  constructor <;> constructor <;>
    simp [wrapperExec, evalUser, updateF, hAB, hBA, lookupEnv_insert_self]

/-- Closed instance of C2 at sessions `"A"`, `"B"`, name `"x"`. -/
theorem c2_session_isolation_witness :
    ((wrapperExec (wrapperExec
        (wrapperExec (wrapperExec ⟨[], fun _ => []⟩ "A" (.assign "x" 100)).1 "B"
          (.assign "x" 200)).1
        "A" (.readVar "x")).1 "B" (.readVar "x")).2 = some ([], .int 200))
    ∧ ((wrapperExec
        (wrapperExec (wrapperExec ⟨[], fun _ => []⟩ "A" (.assign "x" 100)).1 "B"
          (.assign "x" 200)).1
        "A" (.readVar "x")).2 = some ([], .int 100)) :=
  (c2_session_isolation ⟨[], fun _ => []⟩ "A" "B" "x" (by decide)).1

/-- C9: every successful `execute` call binds `output` and `result` at the
top level of the shared global environment — not in the session's private
scope (which is unchanged at those names when the guest code binds some
other name) — so a fresh session (one with no own `result` binding) reads
the last call's `result` value, and any subsequent call in any session
overwrites the global binding. -/
theorem c9_wrapper_globals (st : RState) (A x : String) (v : Int)
    (hx1 : x ≠ "result") (hx2 : x ≠ "output") :
    (lookupEnv (wrapperExec st A (.assign x v)).1.globalEnv "result"
        = some (.int v))
    ∧ (lookupEnv (wrapperExec st A (.assign x v)).1.globalEnv "output"
        = some (.chr []))
    ∧ (lookupEnv ((wrapperExec st A (.assign x v)).1.sessionEnvOf A) "result"
        = lookupEnv (st.sessionEnvOf A) "result")
    ∧ (lookupEnv ((wrapperExec st A (.assign x v)).1.sessionEnvOf A) "output"
        = lookupEnv (st.sessionEnvOf A) "output")
    ∧ (∀ B, lookupEnv (st.sessionEnvOf B) "result" = none →
        (wrapperExec (wrapperExec st A (.assign x v)).1 B (.readVar "result")).2
          = some ([], .int v))
    ∧ (∀ C y w,
        lookupEnv (wrapperExec (wrapperExec st A (.assign x v)).1 C
          (.assign y w)).1.globalEnv "result" = some (.int w)) := by
  refine ⟨?_, ?_, ?_, ?_, ?_, ?_⟩
  · simp [wrapperExec, evalUser, lookupEnv_insert_ne _ "output" "result" _
      (by decide), lookupEnv_insert_self]
  · simp [wrapperExec, evalUser, lookupEnv_insert_self]
  · by_cases hA : A = A
    · simp [wrapperExec, evalUser, updateF, lookupEnv_insert_ne _ x "result" _ hx1]
    · simp at hA
  · simp [wrapperExec, evalUser, updateF, lookupEnv_insert_ne _ x "output" _ hx2]
  · intro B hB
    by_cases hBA : B = A
    · subst hBA
      simp [wrapperExec, evalUser, updateF,
        lookupEnv_insert_ne _ x "result" _ hx1, hB,
        lookupEnv_insert_ne _ "output" "result" _ (by decide),
        lookupEnv_insert_self]
    · simp [wrapperExec, evalUser, updateF, hBA, hB,
        lookupEnv_insert_ne _ "output" "result" _ (by decide),
        lookupEnv_insert_self]
  · intro C y w
    simp [wrapperExec, evalUser,
      lookupEnv_insert_ne _ "output" "result" _ (by decide),
      lookupEnv_insert_self]

/-- Closed instance of C9: after `x <- 5` in session `"A"`, the global
`result` binding is `5` and a fresh session `"B"` reads it. -/
theorem c9_wrapper_globals_witness :
    (lookupEnv (wrapperExec ⟨[], fun _ => []⟩ "A" (.assign "x" 5)).1.globalEnv
        "result" = some (.int 5))
    ∧ ((wrapperExec (wrapperExec ⟨[], fun _ => []⟩ "A" (.assign "x" 5)).1 "B"
        (.readVar "result")).2 = some ([], .int 5)) :=
  ⟨(c9_wrapper_globals ⟨[], fun _ => []⟩ "A" "x" 5 (by decide) (by decide)).1,
   (c9_wrapper_globals ⟨[], fun _ => []⟩ "A" "x" 5 (by decide)
      (by decide)).2.2.2.2.1 "B" rfl⟩
